import Mathlib

/-! Verification of the authentication-context resolution logic of the
nextcloud-mcp-server repository: a shallow embedding of the resolver
get_client (nextcloud_mcp_server/context.py) together with the pieces of
the Smithery entry points (nextcloud_mcp_server/smithery_server.py and
smithery_entrypoint.py) that the properties below mention.

Modelling conventions: Python duck typing on the lifespan context is
modelled with Option-valued fields, none meaning the attribute is absent;
the process environment is narrowed to the three variables the code
touches; effectful execution is modelled by threading the environment
through the call and by recording, in the returned value, how many times
the token-exchange collaborator was invoked. Exceptions are modelled with
Except. -/

/-- The slice of the process environment that get_client reads and writes:
the variables NEXTCLOUD_HOST, NEXTCLOUD_USERNAME and NEXTCLOUD_PASSWORD
(context.py lines 59-86). A field equal to none models a variable that is
absent from the environment. -/
structure Env where
  nextcloud_host : Option String
  nextcloud_username : Option String
  nextcloud_password : Option String
  deriving DecidableEq, Repr

/-- A Nextcloud client value, identified by the credentials it carries.
basic is a client built from host, username and password (BasicAuth);
oauth is a client bound to a host and carrying a bearer token. The client
class itself is an external collaborator (nextcloud_mcp_server/client);
only the credentials a constructed client carries matter here. -/
inductive NextcloudClient where
  | basic (host username password : String)
  | oauth (host token : String)
  deriving DecidableEq, Repr

/-- Errors get_client and its collaborators can raise. attributeError
models a Python AttributeError; configurationError models the
configuration failure of client construction. -/
inductive GetClientError where
  | attributeError (message : String)
  | configurationError (message : String)
  deriving DecidableEq, Repr

/-- Session configuration (smithery_server.py NextcloudConfigSchema):
host URL, username and app password supplied per session. The host is a
string here; pydantic AnyHttpUrl validation is modelled in from_env. -/
structure SessionConfig where
  nextcloud_host : String
  username : String
  password : String
  deriving DecidableEq, Repr

/-- The duck-typed lifespan context that get_client probes with hasattr
(context.py lines 53, 89, 93). A field equal to none models an absent
attribute. typeName models the Python runtime type of the context object,
used in the malformed-context error message (context.py line 115). -/
structure LifespanContext where
  smithery_mode : Option Bool
  client : Option NextcloudClient
  nextcloud_host : Option String
  typeName : String
  deriving DecidableEq, Repr

/-- The per-request MCP context as get_client sees it: the lifespan
context (ctx.request_context.lifespan_context, flattened here), the
session configuration attribute (none models an absent attribute, whose
access raises AttributeError), and the inbound OAuth bearer token. -/
structure Context where
  lifespan_context : LifespanContext
  session_config : Option SessionConfig
  token : String
  deriving DecidableEq, Repr

/-- Process-wide settings (nextcloud_mcp_server/config.get_settings).
Modelled from the spec: the settings provider is not part of this
excerpt; the only field get_client consults is the token-exchange
feature flag (context.py line 99). -/
structure Settings where
  enable_token_exchange : Bool
  deriving DecidableEq, Repr

deriving instance DecidableEq for Except

/-- The observable outcome of one get_client call: the returned client or
raised error, the final process environment, and the number of times the
token-exchange collaborator was invoked during the call. -/
structure ResolveResult where
  result : Except GetClientError NextcloudClient
  env : Env
  exchangeCalls : Nat
  deriving DecidableEq, Repr

/-- Python truthiness of the duck-typed smithery_mode attribute:
hasattr(l, "smithery_mode") and l.smithery_mode (context.py line 53).
An absent attribute is falsy. -/
def truthy : Option Bool → Bool
  | some b => b
  | none => false

/-- Modelled from the spec: validity of a host URL, the "malformed
(e.g., invalid URL)" configuration failure of client construction. The
precise validation lives in the client module, which is not part of this
excerpt; the spec only requires that some hosts are rejected. -/
def isValidHttpUrl (s : String) : Bool :=
  List.isPrefixOf "http://".data s.data || List.isPrefixOf "https://".data s.data

/-- Modelled from the spec: NextcloudClient.from_env (the client module is
not part of this excerpt) reads NEXTCLOUD_HOST, NEXTCLOUD_USERNAME and
NEXTCLOUD_PASSWORD from the process environment and builds a BasicAuth
client from exactly those values; it fails with a configuration error if
a required variable is absent or the host is malformed. -/
def NextcloudClient.from_env (env : Env) : Except GetClientError NextcloudClient :=
  match env.nextcloud_host, env.nextcloud_username, env.nextcloud_password with
  | some h, some u, some p =>
      if isValidHttpUrl h then Except.ok (NextcloudClient.basic h u p)
      else Except.error (GetClientError.configurationError "NEXTCLOUD_HOST is not a valid URL")
  | _, _, _ =>
      Except.error (GetClientError.configurationError "missing required environment variables")

/-- One variable of the restoration block in the finally clause
(context.py lines 73-86): if the saved old value exists, set it back;
else if the variable is currently present, delete it; else leave it
absent. -/
def restoreVar : Option String → Option String → Option String
  | some v, _ => some v
  | none, some _ => none
  | none, none => none

/-- Modelled from the spec: auth.context_helper.get_client_from_context
(not part of this excerpt) builds a client directly from the inbound
token of the caller, with no token-exchange call (multi-audience mode,
context.py line 110). -/
def get_client_from_context (token : String) (host : String) : NextcloudClient :=
  NextcloudClient.oauth host token

/-- Modelled from the spec: auth.context_helper.get_session_client_from_context
(not part of this excerpt) exchanges the inbound token through the
token-exchange collaborator exch and builds the client from the exchanged
credential, never from the original token (context.py lines 103-105). -/
def get_session_client_from_context (exch : String → String) (token : String) (host : String) : NextcloudClient :=
  NextcloudClient.oauth host (exch token)

/-- Embedding of get_client (context.py lines 49-116). The token-exchange
collaborator is the parameter exch; the process environment is threaded
explicitly. The branches mirror the source in order: the smithery_mode
truthiness check, then hasattr client, then hasattr nextcloud_host with
the feature-flag split, then the AttributeError for an unrecognized
shape. In the smithery branch the environment mutation, client
construction and finally-block restoration of lines 57-86 are modelled by
building the mutated environment, constructing from it, and computing the
restored environment unconditionally, which reflects that the finally
clause runs on both the return path and the raise path. -/
def get_client (settings : Settings) (exch : String → String) (ctx : Context) (env : Env) : ResolveResult :=
  if truthy ctx.lifespan_context.smithery_mode then
    match ctx.session_config with
    | none =>
        ⟨Except.error (GetClientError.attributeError "Context object has no attribute session_config"),
         env, 0⟩
    | some session_config =>
        let old_host := env.nextcloud_host
        let old_username := env.nextcloud_username
        let old_password := env.nextcloud_password
        let envSet : Env :=
          ⟨some session_config.nextcloud_host, some session_config.username,
           some session_config.password⟩
        let result := NextcloudClient.from_env envSet
        let envRestored : Env :=
          ⟨restoreVar old_host envSet.nextcloud_host,
           restoreVar old_username envSet.nextcloud_username,
           restoreVar old_password envSet.nextcloud_password⟩
        ⟨result, envRestored, 0⟩
  else
    match ctx.lifespan_context.client with
    | some client => ⟨Except.ok client, env, 0⟩
    | none =>
        match ctx.lifespan_context.nextcloud_host with
        | some host =>
            if settings.enable_token_exchange then
              ⟨Except.ok (get_session_client_from_context exch ctx.token host), env, 1⟩
            else
              ⟨Except.ok (get_client_from_context ctx.token host), env, 0⟩
        | none =>
            ⟨Except.error (GetClientError.attributeError
              ("Lifespan context does not have client, nextcloud_host, or smithery_mode attribute. Type: "
                ++ ctx.lifespan_context.typeName)),
             env, 0⟩

/-- The session path of get_client in isolation (context.py lines 52-86):
read session_config (AttributeError if absent), then run the
inject-construct-restore block. Stated separately so the dispatch theorem
can name the path a session-tagged context selects. -/
def smitherySessionResolve (ctx : Context) (env : Env) : ResolveResult :=
  match ctx.session_config with
  | none =>
      ⟨Except.error (GetClientError.attributeError "Context object has no attribute session_config"),
       env, 0⟩
  | some session_config =>
      let envSet : Env :=
        ⟨some session_config.nextcloud_host, some session_config.username,
         some session_config.password⟩
      ⟨NextcloudClient.from_env envSet,
       ⟨restoreVar env.nextcloud_host envSet.nextcloud_host,
        restoreVar env.nextcloud_username envSet.nextcloud_username,
        restoreVar env.nextcloud_password envSet.nextcloud_password⟩,
       0⟩

/-- The lifespan context yielded by the Smithery lifespans
(smithery_server.py SmitheryAppContext, a dataclass whose only field is
smithery_mode; it has no client and no nextcloud_host attribute). -/
def SmitheryAppContext (b : Bool) : LifespanContext :=
  ⟨some b, none, none, "SmitheryAppContext"⟩

/-- Which of the two concurrent requests enters its critical section
first. The session branch of get_client (context.py lines 53-86) contains
no await, so under the cooperative scheduling of the async runtime the
whole branch runs without suspension: a concurrent execution of two
session-mode resolutions over the shared process environment is
observationally one of the two serializations. -/
inductive Schedule where
  | firstA
  | firstB
  deriving DecidableEq, Repr

/-- Concurrent execution of two resolutions in the same process: the two
get_client calls run atomically in the order the schedule picks, each
seeing the environment the previous one left behind. -/
def runConcurrentSessions (settings : Settings) (exch : String → String)
    (ctxA ctxB : Context) (env : Env) : Schedule → ResolveResult × ResolveResult
  | Schedule.firstA =>
      let rA := get_client settings exch ctxA env
      let rB := get_client settings exch ctxB rA.env
      (rA, rB)
  | Schedule.firstB =>
      let rB := get_client settings exch ctxB env
      let rA := get_client settings exch ctxA rB.env
      (rA, rB)

/-- Failure of the downstream capabilities() call against the remote
service (network failure or HTTP error status). -/
inductive RemoteError where
  | httpError (status : Nat)
  | networkError (message : String)
  deriving DecidableEq, Repr

/-- An error surfaced by the nc://capabilities handler: either client
resolution failed or the remote call failed. -/
inductive HandlerError where
  | resolveError (e : GetClientError)
  | remoteError (e : RemoteError)
  deriving DecidableEq, Repr

/-- The observable outcome of one run of the nc://capabilities handler:
the returned capability document or propagated error, and whether
client.close() was called. -/
structure HandlerRun where
  result : Except HandlerError String
  clientClosed : Bool
  deriving DecidableEq, Repr

/-- Embedding of the nc://capabilities resource handler
(smithery_server.py lines 104-114 and smithery_entrypoint.py lines
91-99): obtain a client with get_client, then inside try return
client.capabilities(), with client.close() in the finally clause. The
behaviour of the remote capabilities() call is the parameter caps. If
resolution itself raised, the handler body never obtained a client and
close is not called; once a client is obtained, the finally clause runs
close on the return path and on the raise path alike. -/
def nc_get_capabilities (resolved : Except GetClientError NextcloudClient)
    (caps : NextcloudClient → Except RemoteError String) : HandlerRun :=
  match resolved with
  | Except.error e => ⟨Except.error (HandlerError.resolveError e), false⟩
  | Except.ok client =>
      match caps client with
      | Except.ok v => ⟨Except.ok v, true⟩
      | Except.error e => ⟨Except.error (HandlerError.remoteError e), true⟩

theorem truthy_eq_true_iff (o : Option Bool) : truthy o = true ↔ o = some true := by
  cases o with
  | none => simp [truthy]
  | some b => cases b <;> simp [truthy]

theorem restoreVar_eq (old cur : Option String) : restoreVar old cur = old := by
  cases old <;> cases cur <;> rfl

theorem get_client_env_unchanged (settings : Settings) (exch : String → String)
    (ctx : Context) (env : Env) : (get_client settings exch ctx env).env = env := by
  unfold get_client
  cases hS : truthy ctx.lifespan_context.smithery_mode with
  | true =>
      simp only [hS, if_true]
      cases hC : ctx.session_config with
      | none => rfl
      | some sc => simp [restoreVar_eq]
  | false =>
      simp only [hS, Bool.false_eq_true, if_false]
      cases hc : ctx.lifespan_context.client with
      | some c => rfl
      | none =>
          cases hh : ctx.lifespan_context.nextcloud_host with
          | some host =>
              cases settings.enable_token_exchange <;> simp
          | none => rfl

theorem truthy_eq_false_iff (o : Option Bool) : truthy o = false ↔ o ≠ some true := by
  cases o with
  | none => simp [truthy]
  | some b => cases b <;> simp [truthy]

theorem get_client_session_result (settings : Settings) (exch : String → String)
    (ctx : Context) (env : Env) (sc : SessionConfig)
    (h1 : ctx.lifespan_context.smithery_mode = some true)
    (h2 : ctx.session_config = some sc) :
    (get_client settings exch ctx env).result
      = NextcloudClient.from_env ⟨some sc.nextcloud_host, some sc.username, some sc.password⟩ := by
  unfold get_client
  have hT : truthy ctx.lifespan_context.smithery_mode = true :=
    (truthy_eq_true_iff _).mpr h1
  simp only [hT, if_true, h2]

theorem session_result_ok (settings : Settings) (exch : String → String)
    (ctx : Context) (env : Env) (sc : SessionConfig)
    (h1 : ctx.lifespan_context.smithery_mode = some true)
    (h2 : ctx.session_config = some sc)
    (h3 : isValidHttpUrl sc.nextcloud_host = true) :
    (get_client settings exch ctx env).result
      = Except.ok (NextcloudClient.basic sc.nextcloud_host sc.username sc.password) := by
  rw [get_client_session_result settings exch ctx env sc h1 h2]
  simp [NextcloudClient.from_env, h3]

/-- C1: For every lifespan context, get_client dispatches in strict
precedence order: a truthy session-mode tag selects the session path;
otherwise a present shared-client handle selects the static path;
otherwise a present remote-host reference selects the OAuth path, split
on the token-exchange feature flag; otherwise the call fails with the
malformed-context error. Each recognized shape selects exactly its
documented path and no shape silently falls through to another. -/
theorem get_client_dispatch_precedence (settings : Settings) (exch : String → String)
    (ctx : Context) (env : Env) :
    (ctx.lifespan_context.smithery_mode = some true →
      get_client settings exch ctx env = smitherySessionResolve ctx env) ∧
    (ctx.lifespan_context.smithery_mode ≠ some true →
      ∀ c, ctx.lifespan_context.client = some c →
        get_client settings exch ctx env = ⟨Except.ok c, env, 0⟩) ∧
    (ctx.lifespan_context.smithery_mode ≠ some true →
      ctx.lifespan_context.client = none →
      ∀ host, ctx.lifespan_context.nextcloud_host = some host →
        get_client settings exch ctx env =
          ⟨Except.ok (if settings.enable_token_exchange then
                get_session_client_from_context exch ctx.token host
              else get_client_from_context ctx.token host),
           env,
           if settings.enable_token_exchange then 1 else 0⟩) ∧
    (ctx.lifespan_context.smithery_mode ≠ some true →
      ctx.lifespan_context.client = none →
      ctx.lifespan_context.nextcloud_host = none →
        get_client settings exch ctx env =
          ⟨Except.error (GetClientError.attributeError
              ("Lifespan context does not have client, nextcloud_host, or smithery_mode attribute. Type: "
                ++ ctx.lifespan_context.typeName)),
           env, 0⟩) := by
  refine ⟨?_, ?_, ?_, ?_⟩
  · intro h
    have hT : truthy ctx.lifespan_context.smithery_mode = true := (truthy_eq_true_iff _).mpr h
    unfold get_client smitherySessionResolve
    simp only [hT, if_true]
  · intro h c hc
    have hF : truthy ctx.lifespan_context.smithery_mode = false := (truthy_eq_false_iff _).mpr h
    simp [get_client, hF, hc]
  · intro h hc host hh
    have hF : truthy ctx.lifespan_context.smithery_mode = false := (truthy_eq_false_iff _).mpr h
    cases hE : settings.enable_token_exchange <;> simp [get_client, hF, hc, hh, hE]
  · intro h hc hh
    have hF : truthy ctx.lifespan_context.smithery_mode = false := (truthy_eq_false_iff _).mpr h
    simp [get_client, hF, hc, hh]

theorem get_client_dispatch_precedence_witness :
    ((⟨⟨none, none, some "https://nc.example.org", "OAuthContext"⟩, none, "tok"⟩ : Context).lifespan_context.smithery_mode
        ≠ some true) ∧
    ((⟨⟨none, none, some "https://nc.example.org", "OAuthContext"⟩, none, "tok"⟩ : Context).lifespan_context.client
        = none) ∧
    get_client ⟨true⟩ (fun t => "ex-" ++ t)
        ⟨⟨none, none, some "https://nc.example.org", "OAuthContext"⟩, none, "tok"⟩
        ⟨none, none, none⟩
      = ⟨Except.ok (if (⟨true⟩ : Settings).enable_token_exchange then
            get_session_client_from_context (fun t => "ex-" ++ t) "tok" "https://nc.example.org"
          else get_client_from_context "tok" "https://nc.example.org"),
         ⟨none, none, none⟩,
         if (⟨true⟩ : Settings).enable_token_exchange then 1 else 0⟩ :=
  ⟨by decide, rfl,
    (get_client_dispatch_precedence ⟨true⟩ (fun t => "ex-" ++ t)
        ⟨⟨none, none, some "https://nc.example.org", "OAuthContext"⟩, none, "tok"⟩
        ⟨none, none, none⟩).2.2.1 (by decide) rfl "https://nc.example.org" rfl⟩

/-- C2: For every session-mode resolution, the process environment
variables NEXTCLOUD_HOST, NEXTCLOUD_USERNAME and NEXTCLOUD_PASSWORD are
identical before and after the get_client call, a variable absent before
being absent after, on every exit path including the one where client
construction fails. -/
theorem session_env_restoration (settings : Settings) (exch : String → String)
    (ctx : Context) (env : Env)
    (_h : ctx.lifespan_context.smithery_mode = some true) :
    (get_client settings exch ctx env).env = env :=
  get_client_env_unchanged settings exch ctx env

theorem session_env_restoration_witness :
    ((⟨SmitheryAppContext true, some ⟨"ftp://not-http", "alice", "pw"⟩, "tok"⟩ : Context).lifespan_context.smithery_mode
        = some true) ∧
    (get_client ⟨false⟩ id
        ⟨SmitheryAppContext true, some ⟨"ftp://not-http", "alice", "pw"⟩, "tok"⟩
        ⟨some "https://old.example.com", none, none⟩).result
      = Except.error (GetClientError.configurationError "NEXTCLOUD_HOST is not a valid URL") ∧
    (get_client ⟨false⟩ id
        ⟨SmitheryAppContext true, some ⟨"ftp://not-http", "alice", "pw"⟩, "tok"⟩
        ⟨some "https://old.example.com", none, none⟩).env
      = ⟨some "https://old.example.com", none, none⟩ :=
  ⟨rfl, by decide,
    session_env_restoration ⟨false⟩ id
      ⟨SmitheryAppContext true, some ⟨"ftp://not-http", "alice", "pw"⟩, "tok"⟩
      ⟨some "https://old.example.com", none, none⟩ rfl⟩

/-- C3: For every OAuth-mode resolution, with the token-exchange flag
disabled get_client builds the client directly from the inbound token of
the caller and invokes the token-exchange collaborator zero times; with
the flag enabled it invokes the exchange exactly once and builds the
client from the exchanged credential, not from the original inbound
token. -/
theorem oauth_token_exchange_flag (settings : Settings) (exch : String → String)
    (ctx : Context) (env : Env) (host : String)
    (h1 : ctx.lifespan_context.smithery_mode ≠ some true)
    (h2 : ctx.lifespan_context.client = none)
    (h3 : ctx.lifespan_context.nextcloud_host = some host) :
    (settings.enable_token_exchange = false →
      get_client settings exch ctx env
        = ⟨Except.ok (NextcloudClient.oauth host ctx.token), env, 0⟩) ∧
    (settings.enable_token_exchange = true →
      get_client settings exch ctx env
        = ⟨Except.ok (NextcloudClient.oauth host (exch ctx.token)), env, 1⟩) := by
  have hF : truthy ctx.lifespan_context.smithery_mode = false := (truthy_eq_false_iff _).mpr h1
  constructor
  · intro hE
    simp [get_client, hF, h2, h3, hE, get_client_from_context]
  · intro hE
    simp [get_client, hF, h2, h3, hE, get_session_client_from_context]

theorem oauth_token_exchange_flag_witness :
    ((⟨⟨none, none, some "https://nc.example.org", "OAuthContext"⟩, none, "inbound"⟩ : Context).lifespan_context.smithery_mode
        ≠ some true) ∧
    get_client ⟨false⟩ (fun t => "ex-" ++ t)
        ⟨⟨none, none, some "https://nc.example.org", "OAuthContext"⟩, none, "inbound"⟩
        ⟨none, none, none⟩
      = ⟨Except.ok (NextcloudClient.oauth "https://nc.example.org" "inbound"),
         ⟨none, none, none⟩, 0⟩ :=
  ⟨by decide,
    (oauth_token_exchange_flag ⟨false⟩ (fun t => "ex-" ++ t)
        ⟨⟨none, none, some "https://nc.example.org", "OAuthContext"⟩, none, "inbound"⟩
        ⟨none, none, none⟩ "https://nc.example.org" (by decide) rfl rfl).1 rfl⟩

/-- C4: For every lifespan context matching none of the three recognized
shapes, get_client fails with a malformed-context AttributeError whose
message identifies the unrecognized shape by its type, and never returns
a client. -/
theorem malformed_context_error (settings : Settings) (exch : String → String)
    (ctx : Context) (env : Env)
    (h1 : ctx.lifespan_context.smithery_mode ≠ some true)
    (h2 : ctx.lifespan_context.client = none)
    (h3 : ctx.lifespan_context.nextcloud_host = none) :
    get_client settings exch ctx env
      = ⟨Except.error (GetClientError.attributeError
          ("Lifespan context does not have client, nextcloud_host, or smithery_mode attribute. Type: "
            ++ ctx.lifespan_context.typeName)),
         env, 0⟩ ∧
    ∀ c, (get_client settings exch ctx env).result ≠ Except.ok c := by
  have hF : truthy ctx.lifespan_context.smithery_mode = false := (truthy_eq_false_iff _).mpr h1
  have hEq : get_client settings exch ctx env
      = ⟨Except.error (GetClientError.attributeError
          ("Lifespan context does not have client, nextcloud_host, or smithery_mode attribute. Type: "
            ++ ctx.lifespan_context.typeName)),
         env, 0⟩ := by
    simp [get_client, hF, h2, h3]
  refine ⟨hEq, ?_⟩
  intro c
  rw [hEq]
  simp

theorem malformed_context_error_witness :
    ((⟨⟨none, none, none, "dict"⟩, none, "tok"⟩ : Context).lifespan_context.smithery_mode
        ≠ some true) ∧
    get_client ⟨false⟩ id ⟨⟨none, none, none, "dict"⟩, none, "tok"⟩ ⟨none, none, none⟩
      = ⟨Except.error (GetClientError.attributeError
          ("Lifespan context does not have client, nextcloud_host, or smithery_mode attribute. Type: "
            ++ (⟨⟨none, none, none, "dict"⟩, none, "tok"⟩ : Context).lifespan_context.typeName)),
         ⟨none, none, none⟩, 0⟩ :=
  ⟨by decide,
    (malformed_context_error ⟨false⟩ id ⟨⟨none, none, none, "dict"⟩, none, "tok"⟩
        ⟨none, none, none⟩ (by decide) rfl rfl).1⟩

/-- C5: In static-credential mode, every call to get_client within one
process lifetime returns the identical pre-existing shared client from
the lifespan context, unchanged: across two arbitrary requests sharing
the same lifespan context the same client value is returned, the process
environment is untouched and the token-exchange collaborator is never
invoked. -/
theorem static_mode_shared_client (s1 s2 : Settings) (e1 e2 : String → String)
    (ctx1 ctx2 : Context) (env1 env2 : Env) (L : LifespanContext) (c : NextcloudClient)
    (hL1 : ctx1.lifespan_context = L) (hL2 : ctx2.lifespan_context = L)
    (hS : L.smithery_mode ≠ some true) (hc : L.client = some c) :
    get_client s1 e1 ctx1 env1 = ⟨Except.ok c, env1, 0⟩ ∧
    get_client s2 e2 ctx2 env2 = ⟨Except.ok c, env2, 0⟩ := by
  have hF : truthy L.smithery_mode = false := (truthy_eq_false_iff _).mpr hS
  constructor
  · simp [get_client, hL1, hF, hc]
  · simp [get_client, hL2, hF, hc]

theorem static_mode_shared_client_witness :
    ((⟨some false, some (NextcloudClient.basic "https://nc.example.org" "svc" "pw"), none, "AppContext"⟩ : LifespanContext).client
        = some (NextcloudClient.basic "https://nc.example.org" "svc" "pw")) ∧
    get_client ⟨false⟩ id
        ⟨⟨some false, some (NextcloudClient.basic "https://nc.example.org" "svc" "pw"), none, "AppContext"⟩, none, "t1"⟩
        ⟨some "h", none, none⟩
      = ⟨Except.ok (NextcloudClient.basic "https://nc.example.org" "svc" "pw"), ⟨some "h", none, none⟩, 0⟩ ∧
    get_client ⟨true⟩ (fun t => "ex-" ++ t)
        ⟨⟨some false, some (NextcloudClient.basic "https://nc.example.org" "svc" "pw"), none, "AppContext"⟩, some ⟨"https://x", "u", "p"⟩, "t2"⟩
        ⟨none, none, none⟩
      = ⟨Except.ok (NextcloudClient.basic "https://nc.example.org" "svc" "pw"), ⟨none, none, none⟩, 0⟩ :=
  ⟨rfl,
    (static_mode_shared_client ⟨false⟩ ⟨true⟩ id (fun t => "ex-" ++ t)
        ⟨⟨some false, some (NextcloudClient.basic "https://nc.example.org" "svc" "pw"), none, "AppContext"⟩, none, "t1"⟩
        ⟨⟨some false, some (NextcloudClient.basic "https://nc.example.org" "svc" "pw"), none, "AppContext"⟩, some ⟨"https://x", "u", "p"⟩, "t2"⟩
        ⟨some "h", none, none⟩ ⟨none, none, none⟩
        ⟨some false, some (NextcloudClient.basic "https://nc.example.org" "svc" "pw"), none, "AppContext"⟩
        (NextcloudClient.basic "https://nc.example.org" "svc" "pw")
        rfl rfl (by decide) rfl).1,
    (static_mode_shared_client ⟨false⟩ ⟨true⟩ id (fun t => "ex-" ++ t)
        ⟨⟨some false, some (NextcloudClient.basic "https://nc.example.org" "svc" "pw"), none, "AppContext"⟩, none, "t1"⟩
        ⟨⟨some false, some (NextcloudClient.basic "https://nc.example.org" "svc" "pw"), none, "AppContext"⟩, some ⟨"https://x", "u", "p"⟩, "t2"⟩
        ⟨some "h", none, none⟩ ⟨none, none, none⟩
        ⟨some false, some (NextcloudClient.basic "https://nc.example.org" "svc" "pw"), none, "AppContext"⟩
        (NextcloudClient.basic "https://nc.example.org" "svc" "pw")
        rfl rfl (by decide) rfl).2⟩

/-- C6: For every session-mode request whose context carries a truthy
smithery_mode tag and a session configuration of host, username and
password with a well-formed host, get_client returns a freshly
constructed BasicAuth client configured with exactly that host, username
and password and no other credentials. -/
theorem session_mode_exact_credentials (settings : Settings) (exch : String → String)
    (ctx : Context) (env : Env) (sc : SessionConfig)
    (h1 : ctx.lifespan_context.smithery_mode = some true)
    (h2 : ctx.session_config = some sc)
    (h3 : isValidHttpUrl sc.nextcloud_host = true) :
    (get_client settings exch ctx env).result
      = Except.ok (NextcloudClient.basic sc.nextcloud_host sc.username sc.password) :=
  session_result_ok settings exch ctx env sc h1 h2 h3

theorem session_mode_exact_credentials_witness :
    ((⟨SmitheryAppContext true, some ⟨"https://cloud.example.com", "alice", "secret"⟩, "tok"⟩ : Context).lifespan_context.smithery_mode
        = some true) ∧
    isValidHttpUrl "https://cloud.example.com" = true ∧
    (get_client ⟨false⟩ id
        ⟨SmitheryAppContext true, some ⟨"https://cloud.example.com", "alice", "secret"⟩, "tok"⟩
        ⟨none, none, none⟩).result
      = Except.ok (NextcloudClient.basic "https://cloud.example.com" "alice" "secret") :=
  ⟨rfl, by decide,
    session_mode_exact_credentials ⟨false⟩ id
      ⟨SmitheryAppContext true, some ⟨"https://cloud.example.com", "alice", "secret"⟩, "tok"⟩
      ⟨none, none, none⟩ ⟨"https://cloud.example.com", "alice", "secret"⟩
      rfl rfl (by decide)⟩

/-- C7: For any two session-mode resolutions running concurrently in the
same process with distinct session configurations, the client built for
each request reflects only its own configuration. The session branch of
get_client (context.py lines 53-86) contains no await, so under the
cooperative scheduling of the async runtime each resolution runs its
environment critical section without suspension and a concurrent
execution is one of the two serializations; under either schedule each
request obtains a client built from exactly its own host, username and
password. -/
theorem concurrent_sessions_isolation (settings : Settings) (exch : String → String)
    (ctxA ctxB : Context) (env : Env) (a b : SessionConfig) (sched : Schedule)
    (hA1 : ctxA.lifespan_context.smithery_mode = some true)
    (hA2 : ctxA.session_config = some a)
    (hB1 : ctxB.lifespan_context.smithery_mode = some true)
    (hB2 : ctxB.session_config = some b)
    (hVa : isValidHttpUrl a.nextcloud_host = true)
    (hVb : isValidHttpUrl b.nextcloud_host = true) :
    (runConcurrentSessions settings exch ctxA ctxB env sched).1.result
        = Except.ok (NextcloudClient.basic a.nextcloud_host a.username a.password) ∧
    (runConcurrentSessions settings exch ctxA ctxB env sched).2.result
        = Except.ok (NextcloudClient.basic b.nextcloud_host b.username b.password) := by
  cases sched with
  | firstA =>
      exact ⟨session_result_ok settings exch ctxA env a hA1 hA2 hVa,
        session_result_ok settings exch ctxB _ b hB1 hB2 hVb⟩
  | firstB =>
      exact ⟨session_result_ok settings exch ctxA _ a hA1 hA2 hVa,
        session_result_ok settings exch ctxB env b hB1 hB2 hVb⟩

theorem concurrent_sessions_isolation_witness :
    ((⟨SmitheryAppContext true, some ⟨"https://a.example.com", "u1", "p1"⟩, "tA"⟩ : Context).lifespan_context.smithery_mode
        = some true) ∧
    ((⟨SmitheryAppContext true, some ⟨"https://b.example.com", "u2", "p2"⟩, "tB"⟩ : Context).lifespan_context.smithery_mode
        = some true) ∧
    (runConcurrentSessions ⟨false⟩ id
        ⟨SmitheryAppContext true, some ⟨"https://a.example.com", "u1", "p1"⟩, "tA"⟩
        ⟨SmitheryAppContext true, some ⟨"https://b.example.com", "u2", "p2"⟩, "tB"⟩
        ⟨none, none, none⟩ Schedule.firstB).1.result
      = Except.ok (NextcloudClient.basic "https://a.example.com" "u1" "p1") ∧
    (runConcurrentSessions ⟨false⟩ id
        ⟨SmitheryAppContext true, some ⟨"https://a.example.com", "u1", "p1"⟩, "tA"⟩
        ⟨SmitheryAppContext true, some ⟨"https://b.example.com", "u2", "p2"⟩, "tB"⟩
        ⟨none, none, none⟩ Schedule.firstB).2.result
      = Except.ok (NextcloudClient.basic "https://b.example.com" "u2" "p2") :=
  ⟨rfl, rfl,
    (concurrent_sessions_isolation ⟨false⟩ id
        ⟨SmitheryAppContext true, some ⟨"https://a.example.com", "u1", "p1"⟩, "tA"⟩
        ⟨SmitheryAppContext true, some ⟨"https://b.example.com", "u2", "p2"⟩, "tB"⟩
        ⟨none, none, none⟩ ⟨"https://a.example.com", "u1", "p1"⟩
        ⟨"https://b.example.com", "u2", "p2"⟩ Schedule.firstB
        rfl rfl rfl rfl (by decide) (by decide)).1,
    (concurrent_sessions_isolation ⟨false⟩ id
        ⟨SmitheryAppContext true, some ⟨"https://a.example.com", "u1", "p1"⟩, "tA"⟩
        ⟨SmitheryAppContext true, some ⟨"https://b.example.com", "u2", "p2"⟩, "tB"⟩
        ⟨none, none, none⟩ ⟨"https://a.example.com", "u1", "p1"⟩
        ⟨"https://b.example.com", "u2", "p2"⟩ Schedule.firstB
        rfl rfl rfl rfl (by decide) (by decide)).2⟩

/-- C8: Once the nc://capabilities resource handler has obtained a
client, it calls close on that client on every exit path, including when
the capabilities() call against the remote service fails. -/
theorem capabilities_handler_closes_client (resolved : Except GetClientError NextcloudClient)
    (caps : NextcloudClient → Except RemoteError String) (c : NextcloudClient)
    (h : resolved = Except.ok c) :
    (nc_get_capabilities resolved caps).clientClosed = true := by
  subst h
  cases hcc : caps c with
  | ok v => simp [nc_get_capabilities, hcc]
  | error e => simp [nc_get_capabilities, hcc]

theorem capabilities_handler_closes_client_witness :
    ((Except.ok (NextcloudClient.basic "https://nc.example.org" "u" "p")
        : Except GetClientError NextcloudClient)
      = Except.ok (NextcloudClient.basic "https://nc.example.org" "u" "p")) ∧
    (nc_get_capabilities (Except.ok (NextcloudClient.basic "https://nc.example.org" "u" "p"))
        (fun _ => Except.error (RemoteError.httpError 500))).result
      = Except.error (HandlerError.remoteError (RemoteError.httpError 500)) ∧
    (nc_get_capabilities (Except.ok (NextcloudClient.basic "https://nc.example.org" "u" "p"))
        (fun _ => Except.error (RemoteError.httpError 500))).clientClosed = true :=
  ⟨rfl, rfl,
    capabilities_handler_closes_client
      (Except.ok (NextcloudClient.basic "https://nc.example.org" "u" "p"))
      (fun _ => Except.error (RemoteError.httpError 500))
      (NextcloudClient.basic "https://nc.example.org" "u" "p") rfl⟩

/-- C9: For every lifespan context whose smithery_mode attribute is
present but falsy, get_client does not take the session path: it falls
through to the shared-client check, then to the remote-host check, and if
neither attribute is present it raises the malformed-context error even
though the smithery_mode attribute name exists on the context. -/
theorem falsy_smithery_mode_falls_through (settings : Settings) (exch : String → String)
    (ctx : Context) (env : Env)
    (h : ctx.lifespan_context.smithery_mode = some false) :
    (∀ c, ctx.lifespan_context.client = some c →
        get_client settings exch ctx env = ⟨Except.ok c, env, 0⟩) ∧
    (ctx.lifespan_context.client = none →
      ∀ host, ctx.lifespan_context.nextcloud_host = some host →
        (get_client settings exch ctx env).result
          = Except.ok (NextcloudClient.oauth host
              (if settings.enable_token_exchange then exch ctx.token else ctx.token))) ∧
    (ctx.lifespan_context.client = none →
      ctx.lifespan_context.nextcloud_host = none →
        get_client settings exch ctx env
          = ⟨Except.error (GetClientError.attributeError
              ("Lifespan context does not have client, nextcloud_host, or smithery_mode attribute. Type: "
                ++ ctx.lifespan_context.typeName)),
             env, 0⟩) := by
  have hF : truthy ctx.lifespan_context.smithery_mode = false := by
    rw [h]; rfl
  refine ⟨?_, ?_, ?_⟩
  · intro c hc
    simp [get_client, hF, hc]
  · intro hc host hh
    cases hE : settings.enable_token_exchange <;>
      simp [get_client, hF, hc, hh, hE, get_client_from_context, get_session_client_from_context]
  · intro hc hh
    simp [get_client, hF, hc, hh]

theorem falsy_smithery_mode_falls_through_witness :
    ((⟨SmitheryAppContext false, some ⟨"https://x.example.com", "u", "p"⟩, "tok"⟩ : Context).lifespan_context.smithery_mode
        = some false) ∧
    ((⟨SmitheryAppContext false, some ⟨"https://x.example.com", "u", "p"⟩, "tok"⟩ : Context).lifespan_context.client
        = none) ∧
    get_client ⟨false⟩ id
        ⟨SmitheryAppContext false, some ⟨"https://x.example.com", "u", "p"⟩, "tok"⟩
        ⟨none, none, none⟩
      = ⟨Except.error (GetClientError.attributeError
          ("Lifespan context does not have client, nextcloud_host, or smithery_mode attribute. Type: "
            ++ (⟨SmitheryAppContext false, some ⟨"https://x.example.com", "u", "p"⟩, "tok"⟩ : Context).lifespan_context.typeName)),
         ⟨none, none, none⟩, 0⟩ :=
  ⟨rfl, rfl,
    (falsy_smithery_mode_falls_through ⟨false⟩ id
        ⟨SmitheryAppContext false, some ⟨"https://x.example.com", "u", "p"⟩, "tok"⟩
        ⟨none, none, none⟩ rfl).2.2 rfl rfl⟩

/-- C10: In session mode get_client reads the session_config attribute of
the request before mutating any environment variable; if that attribute
is absent the call raises an AttributeError with the process environment
completely unchanged. -/
theorem missing_session_config_atomic (settings : Settings) (exch : String → String)
    (ctx : Context) (env : Env)
    (h1 : ctx.lifespan_context.smithery_mode = some true)
    (h2 : ctx.session_config = none) :
    get_client settings exch ctx env
      = ⟨Except.error (GetClientError.attributeError "Context object has no attribute session_config"),
         env, 0⟩ := by
  have hT : truthy ctx.lifespan_context.smithery_mode = true := (truthy_eq_true_iff _).mpr h1
  simp [get_client, hT, h2]

theorem missing_session_config_atomic_witness :
    ((⟨SmitheryAppContext true, none, "tok"⟩ : Context).lifespan_context.smithery_mode
        = some true) ∧
    ((⟨SmitheryAppContext true, none, "tok"⟩ : Context).session_config = none) ∧
    get_client ⟨false⟩ id ⟨SmitheryAppContext true, none, "tok"⟩
        ⟨some "https://keep.example.com", some "keepuser", none⟩
      = ⟨Except.error (GetClientError.attributeError "Context object has no attribute session_config"),
         ⟨some "https://keep.example.com", some "keepuser", none⟩, 0⟩ :=
  ⟨rfl, rfl,
    missing_session_config_atomic ⟨false⟩ id ⟨SmitheryAppContext true, none, "tok"⟩
      ⟨some "https://keep.example.com", some "keepuser", none⟩ rfl rfl⟩
